import Mathlib

/-!
Verification of the query-execution engine in `mcp_server.py`
(`make_jupiterone_query` and its helpers `create_session`, the J1QL
parsing-error classifier, the result normalizer, the polling loop and the
cursor-driven page loop).

The embedding models JSON values (`Jv`), Python's container operations with
their exception behaviour (`pyContains`, `pySubscript`, `pyGet`, `pyIter`,
truthiness), the regular-expression searches used by the source (as
dedicated leftmost-match scanners), and the engine itself as a structural
recursion over a scripted transport environment: each page submission and
each poll of the download URL is answered by the next entry of the script.
The engine returns the final response dictionary together with an
observation trace (one entry per submission, recording the cursor sent,
the number of GET fetches and the number of sleeps).

Wall-clock values (`metadata["timestamp"]`, the real 200 ms duration of
`time.sleep(0.2)`) are outside the model; the model records the *number*
of sleeps and the constant `sleepIntervalMs` from the source.
-/

/-- JSON values as produced by `response.json()`.  Numbers are modelled as
integers (no claim depends on float behaviour). -/
inductive Jv where
  | null
  | bool (b : Bool)
  | num (n : Int)
  | str (s : String)
  | arr (xs : List Jv)
  | obj (fields : List (String × Jv))

/-- The Python exceptions that the source can raise and catch:
`KeyError`, `json.JSONDecodeError`, `TypeError`, `AttributeError`,
`requests.RequestException`. -/
inductive PyExc where
  | keyError (k : String)
  | jsonDecode (m : String)
  | typeError (m : String)
  | attrError (m : String)
  | requestExc (m : String)

/-- Python truthiness of a JSON value (`if download_data.get('error'):` etc.). -/
def pyTruthy : Jv → Bool
  | .null => false
  | .bool b => b
  | .num n => n != 0
  | .str s => s != ""
  | .arr xs => !xs.isEmpty
  | .obj fs => !fs.isEmpty

/-- Occurrence of `pat` as a contiguous sublist (Python substring test). -/
def subAt (pat : List Char) : List Char → Bool
  | [] => pat.isEmpty
  | c :: cs => pat.isPrefixOf (c :: cs) || subAt pat cs

/-- Python `pat in s` on strings. -/
def strContains (s pat : String) : Bool := subAt pat.data s.data

/-- Index of the first occurrence of `pat` in the remaining list, counting
from `i`. -/
def findSubAux (pat : List Char) : List Char → Nat → Option Nat
  | [], i => if pat.isEmpty then some i else none
  | c :: cs, i => if pat.isPrefixOf (c :: cs) then some i else findSubAux pat cs (i + 1)

/-- Python `s.find(pat)`: first index, or -1 when absent. -/
def pyFind (s pat : String) : Int :=
  match findSubAux pat.data s.data 0 with
  | some i => (i : Int)
  | none => -1

/-- Python `k in j` for a JSON value `j`: key membership for dicts, element
membership for lists, substring for strings, `TypeError` otherwise. -/
def pyContains (k : String) : Jv → Except PyExc Bool
  | .obj fs => .ok (fs.any (fun p => p.1 == k))
  | .arr xs => .ok (xs.any (fun e => match e with | .str s => s == k | _ => false))
  | .str s => .ok (subAt k.data s.data)
  | _ => .error (.typeError "argument of type is not iterable")

/-- Python `j[k]` for a string key: dict lookup (`KeyError` when absent),
`TypeError` on every other value. -/
def pySubscript (j : Jv) (k : String) : Except PyExc Jv :=
  match j with
  | .obj fs =>
    match List.lookup k fs with
    | some v => .ok v
    | none => .error (.keyError k)
  | .arr _ => .error (.typeError "list indices must be integers or slices, not str")
  | .str _ => .error (.typeError "string indices must be integers")
  | _ => .error (.typeError "object is not subscriptable")

/-- Python `j.get(k, d)`: only dicts have `.get`; anything else raises
`AttributeError`. -/
def pyGet (j : Jv) (k : String) (d : Jv) : Except PyExc Jv :=
  match j with
  | .obj fs => .ok ((List.lookup k fs).getD d)
  | _ => .error (.attrError "object has no attribute get")

/-- Python `for x in j`: lists yield elements, dicts yield their keys,
strings yield one-character strings, anything else raises `TypeError`. -/
def pyIter : Jv → Except PyExc (List Jv)
  | .arr xs => .ok xs
  | .obj fs => .ok (fs.map (fun p => Jv.str p.1))
  | .str s => .ok (s.data.map (fun c => Jv.str (String.mk [c])))
  | _ => .error (.typeError "object is not iterable")

mutual
/-- Python `repr` of a JSON value (used by f-string interpolation of
non-string values). -/
def pyRepr : Jv → String
  | .null => "None"
  | .bool true => "True"
  | .bool false => "False"
  | .num n => toString n
  | .str s => "'" ++ s ++ "'"
  | .arr xs => "[" ++ pyReprList xs ++ "]"
  | .obj fs => "\x7b" ++ pyReprObj fs ++ "\x7d"

def pyReprList : List Jv → String
  | [] => ""
  | [x] => pyRepr x
  | x :: y :: xs => pyRepr x ++ ", " ++ pyReprList (y :: xs)

def pyReprObj : List (String × Jv) → String
  | [] => ""
  | [(k, v)] => "'" ++ k ++ "': " ++ pyRepr v
  | (k, v) :: f :: fs => "'" ++ k ++ "': " ++ pyRepr v ++ ", " ++ pyReprObj (f :: fs)
end

/-- Python `str` of a JSON value, as used inside an f-string. -/
def pyStr (j : Jv) : String :=
  match j with
  | .str s => s
  | _ => pyRepr j

/-! ## Regular-expression searches from the source, as leftmost-match scanners -/

/-- Try a matcher at every start position, left to right (the semantics of
`re.search`). -/
def scanFirst {α : Type} (f : List Char → Option α) : List Char → Option α
  | [] => f []
  | c :: cs =>
    match f (c :: cs) with
    | some r => some r
    | none => scanFirst f cs

/-- Strip an exact literal from the front. -/
def stripLit (lit cs : List Char) : Option (List Char) :=
  if lit.isPrefixOf cs then some (cs.drop lit.length) else none

/-- Strip a literal from the front, ASCII case-insensitively. -/
def stripLitCI : List Char → List Char → Option (List Char)
  | [], cs => some cs
  | _ :: _, [] => none
  | l :: ls, c :: cs => if l.toLower == c.toLower then stripLitCI ls cs else none

/-- Read a maximal nonempty digit run and its decimal value. -/
def readDigits (cs : List Char) : Option (Nat × List Char) :=
  let p := cs.span Char.isDigit
  if p.1.isEmpty then none
  else some (p.1.foldl (fun a c => a * 10 + (c.toNat - 48)) 0, p.2)

/-- Word characters for the regex `\b` boundary (`[A-Za-z0-9_]`). -/
def isWordChar (c : Char) : Bool := c.isAlphanum || c == '_'

/-- Whitespace characters for the regex class `\s`. -/
def isSpaceChar (c : Char) : Bool :=
  c == ' ' || c == '\t' || c == '\n' || c == '\r' || c == '\x0b' || c == '\x0c'

/-- Match `LIMIT\s+\d+\b` (case-insensitive) at the current position.  The
leading `\b` is handled by the caller. -/
def limitMatchAt (cs : List Char) : Bool :=
  match stripLitCI "limit".data cs with
  | none => false
  | some cs1 =>
    let sp := cs1.span isSpaceChar
    if sp.1.isEmpty then false
    else
      let ds := sp.2.span Char.isDigit
      if ds.1.isEmpty then false
      else
        match ds.2 with
        | [] => true
        | c :: _ => !isWordChar c

/-- Scan for `\bLIMIT\s+\d+\b`; the flag records whether the previous
character was a word character (so `\b` holds exactly when it is false). -/
def hasLimitAux (prevWord : Bool) : List Char → Bool
  | [] => false
  | c :: rest => (!prevWord && limitMatchAt (c :: rest)) || hasLimitAux (isWordChar c) rest

/-- The search `re.search(r'\bLIMIT\s+\d+\b', query, re.IGNORECASE)` as a
Boolean (source line 55). -/
def hasLimitRe (q : String) : Bool := hasLimitAux false q.data

/-- Match `at line (\d+) column (\d+)` at the current position. -/
def lineColAt (cs : List Char) : Option (Nat × Nat) := do
  let cs1 ← stripLit "at line ".data cs
  let (n1, cs2) ← readDigits cs1
  let cs3 ← stripLit " column ".data cs2
  let (n2, _) ← readDigits cs3
  some (n1, n2)

/-- The search `re.search(r"at line (\d+) column (\d+)", msg)` (source line 119). -/
def matchLineCol (cs : List Char) : Option (Nat × Nat) := scanFirst lineColAt cs

/-- Match `Unexpected token "([^"]+)"` at the current position. -/
def tokenAt (cs : List Char) : Option String := do
  let cs1 ← stripLit "Unexpected token \"".data cs
  let p := cs1.span (fun c => c != '"')
  if p.1.isEmpty then none
  else
    match p.2 with
    | '"' :: _ => some (String.mk p.1)
    | _ => none

/-- The search `re.search(r"Unexpected token \"([^\"]+)\"", msg)` (source line 125). -/
def matchToken (cs : List Char) : Option String := scanFirst tokenAt cs

/-- Match `\n> \d+ \| (.+)\n` at the current position. -/
def queryLineAt (cs : List Char) : Option String := do
  let cs1 ← stripLit "\n> ".data cs
  let (_, cs2) ← readDigits cs1
  let cs3 ← stripLit " | ".data cs2
  let p := cs3.span (fun c => c != '\n')
  if p.1.isEmpty then none
  else
    match p.2 with
    | '\n' :: _ => some (String.mk p.1)
    | _ => none

/-- The search `re.search(r"\n> \d+ \| (.+)\n", msg)` (source line 130). -/
def matchQueryLine (cs : List Char) : Option String := scanFirst queryLineAt cs

/-- Match `\n    \| (\^+)` at the current position. -/
def pointerAt (cs : List Char) : Option String := do
  let cs1 ← stripLit "\n    | ".data cs
  let p := cs1.span (fun c => c == '^')
  if p.1.isEmpty then none else some (String.mk p.1)

/-- The search `re.search(r"\n    \| (\^+)", msg)` (source line 135). -/
def matchPointer (cs : List Char) : Option String := scanFirst pointerAt cs

/-! ## Error classification -/

/-- The structured data built for a J1QL parsing error
(source lines 113-154). -/
structure ParsingErrorData where
  type : String
  message : String
  line : Option Nat
  column : Option Nat
  unexpected_token : Option String
  query_line : Option String
  pointer : Option String
  suggestion : Option String
deriving DecidableEq

/-- The token-based suggestion table (source lines 140-152). -/
def suggestionFor (query t : String) : Option String :=
  if t == "=" then
    some "In J1QL, property filtering should use 'WITH' clause instead of 'WHERE' for entity properties"
  else if t == "\"" then
    some "J1QL requires single quotes (') for string values, not double quotes (\")"
  else if t == "WHRE" || t == "WEHRE" || t == "WHER" then
    some "Did you mean 'WHERE'?"
  else if t == "WIH" || t == "WIT" || t == "WIHT" then
    some "Did you mean 'WITH'?"
  else if t == "WITH" && strContains query "AS" && pyFind query "AS" < pyFind query "WITH" then
    some "In J1QL, 'WITH' must come before 'AS'"
  else none

/-- The J1QL parsing-error decomposition (source lines 113-154): line/column,
unexpected token and offending query line are each extracted on their own;
the pointer extraction is nested inside the query-line match; the suggestion
is derived from the extracted token. -/
def classifyParsing (query msg : String) : ParsingErrorData :=
  let lc := matchLineCol msg.data
  let tok := matchToken msg.data
  let ql := matchQueryLine msg.data
  { type := "J1QL_PARSING_ERROR"
    message := "Error parsing J1QL query"
    line := lc.map Prod.fst
    column := lc.map Prod.snd
    unexpected_token := tok
    query_line := ql
    pointer := match ql with
      | some _ => matchPointer msg.data
      | none => none
    suggestion := match tok with
      | some t => suggestionFor query t
      | none => none }

/-- The response's `error` field: either a plain string or the structured
parsing-error dictionary. -/
inductive ErrVal where
  | msg (s : String)
  | parsing (d : ParsingErrorData)

/-- HTTP status classification (source lines 88-98). -/
def classifyHttp (status : Nat) (text : String) : String :=
  if status == 401 then "401: Unauthorized. Please supply a valid account id and API token."
  else if status == 429 || status == 503 then "Rate limit exceeded. Please try again later."
  else if status == 504 then "Gateway Timeout."
  else if status == 500 then "JupiterOne API internal server error."
  else "HTTP Error " ++ toString status ++ ": " ++ text

/-- Python `str(e)` of a `KeyError` carries the key in quotes. -/
def keyErrorStr (k : String) : String := "'" ++ k ++ "'"

/-- Message produced when an exception escapes from inside the inner
`try` (source lines 163-229): `KeyError` and `json.JSONDecodeError` are
caught at line 227, `requests.RequestException` at line 237, everything
else at line 240. -/
def innerExcMsg : PyExc → String
  | .keyError k => "Failed to process query response: " ++ keyErrorStr k
  | .jsonDecode m => "Failed to process query response: " ++ m
  | .typeError m => "Unexpected error: " ++ m
  | .attrError m => "Unexpected error: " ++ m
  | .requestExc m => "Request failed: " ++ m

/-- Message produced when an exception is raised outside the inner `try`
(only the handlers at lines 237 and 240 apply; `requests.JSONDecodeError`
is a `RequestException` subclass). -/
def outerExcMsg : PyExc → String
  | .keyError k => "Unexpected error: " ++ keyErrorStr k
  | .jsonDecode m => "Request failed: " ++ m
  | .typeError m => "Unexpected error: " ++ m
  | .attrError m => "Unexpected error: " ++ m
  | .requestExc m => "Request failed: " ++ m

/-- Python `', '.join(error_messages)`: every element must be a string, otherwise
`TypeError`. -/
def joinStrs : List Jv → Except PyExc String
  | [] => .ok ""
  | [.str s] => .ok s
  | .str s :: y :: ys => do
    let rest ← joinStrs (y :: ys)
    .ok (s ++ ", " ++ rest)
  | _ => .error (.typeError "sequence item: expected str instance")

/-- The loop over the GraphQL `errors` list (source lines 107-159): the
first message containing the parsing-error marker short-circuits into the
structured parsing error; otherwise the messages are collected and joined. -/
def classifyMessages (query : String) (acc : List Jv) : List Jv → ErrVal
  | [] =>
    match joinStrs acc with
    | .error e => .msg (outerExcMsg e)
    | .ok s => .msg ("GraphQL errors: " ++ s)
  | e :: rest =>
    match pyGet e "message" (Jv.str "Unknown error") with
    | .error ex => .msg (outerExcMsg ex)
    | .ok m =>
      match pyContains "Error parsing query" m with
      | .error ex => .msg (outerExcMsg ex)
      | .ok true =>
        match m with
        | .str s => .parsing (classifyParsing query s)
        | _ => .msg (outerExcMsg (.typeError "expected string or bytes-like object"))
      | .ok false => classifyMessages query (acc ++ [m]) rest

/-- Classification of a 200 submission response whose body contains an
`errors` key (source lines 103-160). -/
def classifyGraphQLErrors (query : String) (rj : Jv) : ErrVal :=
  match pySubscript rj "errors" with
  | .error e => .msg (outerExcMsg e)
  | .ok errs =>
    match pyIter errs with
    | .error e => .msg (outerExcMsg e)
    | .ok items => classifyMessages query [] items

/-! ## Result normalization (source lines 185-200) -/

/-- Per-record normalization: a record with both an `entity` and a
`properties` key is flattened to the entity shape; otherwise the record is
appended unchanged.  Python raises on non-container records (`in` on an
int is a `TypeError`) and on records whose shape defeats `.get`
(`AttributeError`); those exceptions abort the whole query. -/
def normalizeItem (item : Jv) : Except PyExc Jv := do
  let he ← pyContains "entity" item
  let hp ← pyContains "properties" item
  if he && hp then do
    let idv ← pyGet item "id" Jv.null
    let ent ← pySubscript item "entity"
    let tv ← pyGet ent "_type" Jv.null
    let cv ← pyGet ent "_class" (Jv.arr [])
    let nv ← pyGet ent "displayName" Jv.null
    let iv ← pyGet ent "_integrationName" Jv.null
    let pv ← pySubscript item "properties"
    pure (Jv.obj [("id", idv), ("type", tv), ("class", cv), ("name", nv),
                  ("integrationName", iv), ("properties", pv)])
  else
    pure item

/-- The `for item in download_data['data']` loop building
`processed_results`. -/
def processItems : List Jv → Except PyExc (List Jv)
  | [] => .ok []
  | it :: rest => do
    let p ← normalizeItem it
    let ps ← processItems rest
    .ok (p :: ps)

/-! ## The scripted transport environment and the engine -/

/-- Outcome of one `session.post` call: status code, raw body text, and the
result of `.json()` (`Except.error` = the body is not valid JSON). -/
structure PostResp where
  status : Nat
  text : String
  json : Except String Jv

/-- Outcome of one `session.get` call on the download URL. -/
structure GetResp where
  status : Nat
  json : Except String Jv

/-- Scripted environment for one iteration of the page loop: the submission
outcome (`Except.error` = the transport raised `requests.RequestException`)
and the successive poll outcomes for the returned download URL. -/
structure PageScript where
  post : Except String PostResp
  polls : List (Except String GetResp)

/-- The call `time.sleep(0.2)` waits 200 milliseconds between polls
(source line 179). -/
def sleepIntervalMs : Nat := 200

/-- The test `status != 'IN_PROGRESS'` is the poll-loop exit test (source line 176);
the loop continues exactly when the status value equals the string. -/
def isInProgress : Jv → Bool
  | .str s => s == "IN_PROGRESS"
  | _ => false

/-- How the polling loop (source lines 167-179) ends. -/
inductive PollOutcome where
  | fetchFail (status : Nat)
  | exc (e : PyExc)
  | ready (payload : Jv)

/-- The polling loop: fetch the download URL; on a non-200 status return a
terminal failure; parse the body; while its `status` reads `IN_PROGRESS`,
sleep and re-fetch the same URL.  Returns the outcome, the number of
fetches and the number of sleeps; `none` means the script ran out while
the loop still wanted to poll. -/
def pollLoop : List (Except String GetResp) → Option (PollOutcome × Nat × Nat)
  | [] => none
  | .error m :: _ => some (.exc (.requestExc m), 1, 0)
  | .ok g :: rest =>
    if g.status ≠ 200 then some (.fetchFail g.status, 1, 0)
    else
      match g.json with
      | .error m => some (.exc (.jsonDecode m), 1, 0)
      | .ok d =>
        match pyGet d "status" Jv.null with
        | .error e => some (.exc e, 1, 0)
        | .ok st =>
          if isInProgress st then
            match pollLoop rest with
            | none => none
            | some (o, f, s) => some (o, f + 1, s + 1)
          else some (.ready d, 1, 0)

/-- What one iteration of the page loop decides (after the materialized
page was handled): terminal failure, stop paging, or continue with a new
cursor.  `recs` are this page's normalized records, `hm` is this page's
assignment to `metadata["has_more"]` (`none` = not assigned). -/
inductive PageStep where
  | fail (e : ErrVal)
  | stop (recs : List Jv) (hm : Option Bool)
  | next (recs : List Jv) (hm : Option Bool) (cursor : Jv)

/-- The pagination decision (source lines 216-225): with an explicit LIMIT
the loop breaks after the first page; otherwise it continues exactly when
the payload has a `cursor` key with a truthy value. -/
def afterData (hasLimit : Bool) (d : Jv) (recs : List Jv) (hm : Option Bool) : PageStep :=
  if hasLimit then .stop recs hm
  else
    match pyContains "cursor" d with
    | .error e => .fail (.msg (innerExcMsg e))
    | .ok true =>
      match pySubscript d "cursor" with
      | .error e => .fail (.msg (innerExcMsg e))
      | .ok cv => if pyTruthy cv then .next recs hm cv else .stop recs hm
    | .ok false => .stop recs hm

/-- Handling of a materialized page payload (source lines 182-225):
normalize and collect `data` records and record `has_more` from the
presence of the `cursor` key; without `data`, a truthy `error` value is a
terminal failure; then decide pagination. -/
def processReady (hasLimit : Bool) (d : Jv) : PageStep :=
  match pyContains "data" d with
  | .error e => .fail (.msg (innerExcMsg e))
  | .ok true =>
    match pySubscript d "data" with
    | .error e => .fail (.msg (innerExcMsg e))
    | .ok dv =>
      match pyIter dv with
      | .error e => .fail (.msg (innerExcMsg e))
      | .ok items =>
        match processItems items with
        | .error e => .fail (.msg (innerExcMsg e))
        | .ok recs =>
          match pyContains "cursor" d with
          | .error e => .fail (.msg (innerExcMsg e))
          | .ok hc => afterData hasLimit d recs (some hc)
  | .ok false =>
    match pyGet d "error" Jv.null with
    | .error e => .fail (.msg (innerExcMsg e))
    | .ok ev =>
      if pyTruthy ev then .fail (.msg ("Query error: " ++ pyStr ev))
      else afterData hasLimit d [] none

/-- The extraction `response_json['data']['queryV1']['url']` (source line 164). -/
def extractUrl (rj : Jv) : Except PyExc Jv := do
  let d ← pySubscript rj "data"
  let qv ← pySubscript d "queryV1"
  pySubscript qv "url"

/-- One iteration of the page loop (source lines 57-229): submit, classify
a non-200 status, parse the body, classify GraphQL errors, extract the
download URL, poll, then handle the materialized page.  Returns the step
with the fetch and sleep counts of this iteration. -/
def processPage (query : String) (hasLimit : Bool) (ps : PageScript) :
    Option (PageStep × Nat × Nat) :=
  match ps.post with
  | .error m => some (.fail (.msg ("Request failed: " ++ m)), 0, 0)
  | .ok pr =>
    if pr.status ≠ 200 then some (.fail (.msg (classifyHttp pr.status pr.text)), 0, 0)
    else
      match pr.json with
      | .error m => some (.fail (.msg ("Request failed: " ++ m)), 0, 0)
      | .ok rj =>
        match pyContains "errors" rj with
        | .error e => some (.fail (.msg (outerExcMsg e)), 0, 0)
        | .ok true => some (.fail (classifyGraphQLErrors query rj), 0, 0)
        | .ok false =>
          match extractUrl rj with
          | .error e => some (.fail (.msg (innerExcMsg e)), 0, 0)
          | .ok _ =>
            match pollLoop ps.polls with
            | none => none
            | some (.exc e, g, s) => some (.fail (.msg (innerExcMsg e)), g, s)
            | some (.fetchFail st, g, s) =>
              some (.fail (.msg ("Failed to fetch query results: " ++ toString st)), g, s)
            | some (.ready d, g, s) => some (processReady hasLimit d, g, s)

/-- The `metadata` sub-dictionary of the response (`timestamp` is wall-clock
time and is outside the model; `has_more` is only present once assigned). -/
structure RespMetadata where
  count : Nat
  has_more : Option Bool

/-- The response dictionary built by `make_jupiterone_query`
(source lines 33-41 and 231-235). -/
structure ExecutionResult where
  query : String
  success : Bool
  results : List Jv
  metadata : RespMetadata
  error : Option ErrVal

/-- Observation of one page-loop iteration: the cursor variable sent with
the submission, and the fetch and sleep counts of the polling loop. -/
structure PageTrace where
  sentCursor : Option Jv
  gets : Nat
  sleeps : Nat

/-- An error return: the initial `success=False`, `results=[]`, `count=0`
survive; `has_more` keeps whatever an earlier page assigned. -/
def errOut (query : String) (e : ErrVal) (hm : Option Bool) : ExecutionResult :=
  { query := query, success := false, results := [],
    metadata := { count := 0, has_more := hm }, error := some e }

/-- The successful return (source lines 231-235). -/
def okOut (query : String) (acc : List Jv) (hm : Option Bool) : ExecutionResult :=
  { query := query, success := true, results := acc,
    metadata := { count := acc.length, has_more := hm }, error := none }

/-- The `has_more` assignment: a page that sets it overwrites the previous
value. -/
def updHm (old new : Option Bool) : Option Bool :=
  match new with
  | some b => some b
  | none => old

/-- The page loop (`while True`, source lines 57-229), threading the cursor
variable, the accumulated results and the `has_more` state through the
script.  `none` means the script was exhausted. -/
def pageLoop (query : String) (hasLimit : Bool) (cur : Option Jv) (acc : List Jv)
    (hm : Option Bool) : List PageScript → Option (ExecutionResult × List PageTrace)
  | [] => none
  | ps :: rest =>
    match processPage query hasLimit ps with
    | none => none
    | some (.fail e, g, s) => some (errOut query e hm, [⟨cur, g, s⟩])
    | some (.stop recs phm, g, s) =>
      some (okOut query (acc ++ recs) (updHm hm phm), [⟨cur, g, s⟩])
    | some (.next recs phm c, g, s) =>
      match pageLoop query hasLimit (some c) (acc ++ recs) (updHm hm phm) rest with
      | none => none
      | some (out, ts) => some (out, ⟨cur, g, s⟩ :: ts)

/-- Run `make_jupiterone_query(query)` against a scripted transport: compute
`has_limit` once, then run the page loop from an absent cursor, empty
accumulator and unassigned `has_more`. -/
def runQuery (query : String) (script : List PageScript) :
    Option (ExecutionResult × List PageTrace) :=
  pageLoop query (hasLimitRe query) none [] none script

/-- The retry policy installed by `create_session` (source lines 20-29). -/
structure RetryPolicy where
  total : Nat
  backoff_factor : Nat
  status_forcelist : List Nat
  allowed_methods : List String

/-- The policy `Retry(total=5, backoff_factor=1, status_forcelist=[429, 502, 503, 504],
allowed_methods=["POST", "GET"])`. -/
def sessionRetry : RetryPolicy :=
  { total := 5, backoff_factor := 1, status_forcelist := [429, 502, 503, 504],
    allowed_methods := ["POST", "GET"] }

/-! ## Canonical well-formed server behaviour, for the pagination claims -/

/-- An abstract materialized page: its raw records, its `cursor` field
(`none` = key absent, `some v` = key present with value `v`), and the
number of `IN_PROGRESS` polls before it is ready. -/
structure GoodPage where
  records : List Jv
  cursor : Option Jv
  inprog : Nat

/-- A well-formed submission response carrying a download URL. -/
def goodPost : PostResp :=
  ⟨200, "",
   .ok (Jv.obj [("data", Jv.obj [("queryV1", Jv.obj [("url", Jv.str "https://dl.example")])])])⟩

/-- The payload of a page that is still being computed server-side. -/
def inprogPayload : Jv := Jv.obj [("status", Jv.str "IN_PROGRESS")]

/-- The materialized payload of a good page. -/
def goodPayload (p : GoodPage) : Jv :=
  Jv.obj ([("status", Jv.str "FINISHED"), ("data", Jv.arr p.records)] ++
    (match p.cursor with
     | none => []
     | some v => [("cursor", v)]))

/-- The transport script of one good page: a clean submission, `inprog`
not-ready polls, then the materialized payload. -/
def goodPageScript (p : GoodPage) : PageScript :=
  ⟨.ok goodPost,
   List.replicate p.inprog (.ok ⟨200, .ok inprogPayload⟩) ++ [.ok ⟨200, .ok (goodPayload p)⟩]⟩

/-- The transport script of a sequence of good pages. -/
def goodScript (ps : List GoodPage) : List PageScript := ps.map goodPageScript

/-- The normalized records of a good page (meaningful when normalization
succeeds on each record). -/
def procRecs (p : GoodPage) : List Jv :=
  match processItems p.records with
  | .ok rs => rs
  | .error _ => []

/-- In-order concatenation of the normalized records of a page sequence. -/
def flatRecs (pages : List GoodPage) : List Jv := (pages.map procRecs).flatten

/-- The trace the engine produces on a good-page sequence: each submission
sends the previous page's cursor and polls `inprog + 1` times with
`inprog` sleeps. -/
def goodTraces (cur : Option Jv) : List GoodPage → List PageTrace
  | [] => []
  | p :: rest => ⟨cur, p.inprog + 1, p.inprog⟩ :: goodTraces p.cursor rest

/-- The cursor variable after consuming a sequence of continuing pages. -/
def endCur (cur : Option Jv) : List GoodPage → Option Jv
  | [] => cur
  | p :: ps => endCur p.cursor ps

/-- The `has_more` state after consuming a sequence of continuing pages
(each carries a `cursor` key, so each assigns `True`). -/
def endHm (hm : Option Bool) : List GoodPage → Option Bool
  | [] => hm
  | _ :: ps => endHm (some true) ps

/-- A page that makes the loop continue: records normalize, and the cursor
is a non-empty string. -/
def contPage (p : GoodPage) : Prop :=
  (processItems p.records).isOk = true ∧ ∃ s, p.cursor = some (Jv.str s) ∧ s ≠ ""

/-- A page at which the loop terminates: records normalize, and the cursor
key is absent, null, or the empty string. -/
def termPage (p : GoodPage) : Prop :=
  (processItems p.records).isOk = true ∧
    (p.cursor = none ∨ p.cursor = some Jv.null ∨ p.cursor = some (Jv.str ""))

/-! ## Helper lemmas -/

theorem processItems_length {l rs : List Jv} (h : processItems l = .ok rs) :
    rs.length = l.length := by
  induction l generalizing rs with
  | nil => simp [processItems] at h; simp [← h]
  | cons x xs ih =>
    simp only [processItems, bind, Except.bind] at h
    cases hx : normalizeItem x with
    | error e => rw [hx] at h; exact absurd h (by simp)
    | ok p =>
      rw [hx] at h
      cases hxs : processItems xs with
      | error e => rw [hxs] at h; exact absurd h (by simp)
      | ok ps =>
        rw [hxs] at h
        simp only [Except.ok.injEq] at h
        subst h
        simp [ih hxs]

theorem pollLoop_replicate (n : Nat) (d : Jv) (st : Jv)
    (rest : List (Except String GetResp))
    (hst : pyGet d "status" Jv.null = .ok st) (hip : isInProgress st = false) :
    pollLoop (List.replicate n (.ok ⟨200, .ok inprogPayload⟩) ++ .ok ⟨200, .ok d⟩ :: rest) =
      some (.ready d, n + 1, n) := by
  induction n with
  | zero => simp [pollLoop, hst, hip]
  | succ m ih =>
    simp only [List.replicate_succ, List.cons_append, pollLoop, inprogPayload] at ih ⊢
    simp [pyGet, isInProgress, ih]

/-- What one good page makes the loop decide: with an explicit limit the
loop stops; otherwise it continues exactly on a truthy cursor value. -/
def stepGood (hl : Bool) (p : GoodPage) (rs : List Jv) : PageStep :=
  if hl then .stop rs (some p.cursor.isSome)
  else
    match p.cursor with
    | none => .stop rs (some false)
    | some v => if pyTruthy v then .next rs (some true) v else .stop rs (some true)

theorem processReady_good (hl : Bool) (p : GoodPage) (rs : List Jv)
    (hrec : processItems p.records = .ok rs) :
    processReady hl (goodPayload p) = stepGood hl p rs := by
  have h1 : pyContains "data" (goodPayload p) = .ok true := rfl
  have h2 : pySubscript (goodPayload p) "data" = .ok (.arr p.records) := rfl
  simp only [processReady, h1, h2, pyIter, hrec]
  cases hc : p.cursor with
  | none =>
    have h3 : pyContains "cursor" (goodPayload p) = .ok false := by
      simp [goodPayload, hc, pyContains]
    simp only [h3, afterData, h3, stepGood, hc]
    cases hl <;> simp
  | some v =>
    have h3 : pyContains "cursor" (goodPayload p) = .ok true := by
      simp [goodPayload, hc, pyContains]
    have h4 : pySubscript (goodPayload p) "cursor" = .ok v := by
      simp [goodPayload, hc, pySubscript, List.lookup]
    simp only [h3, afterData, h4, stepGood, hc]
    cases hl <;> simp

theorem processPage_good (q : String) (hl : Bool) (p : GoodPage) (rs : List Jv)
    (hrec : processItems p.records = .ok rs) :
    processPage q hl (goodPageScript p) = some (stepGood hl p rs, p.inprog + 1, p.inprog) := by
  have hpoll := pollLoop_replicate p.inprog (goodPayload p) (Jv.str "FINISHED") [] rfl rfl
  have key : processPage q hl (goodPageScript p) =
      (match pollLoop (List.replicate p.inprog (.ok ⟨200, .ok inprogPayload⟩) ++
          [.ok ⟨200, .ok (goodPayload p)⟩]) with
       | none => none
       | some (.exc e, g, s) => some (.fail (.msg (innerExcMsg e)), g, s)
       | some (.fetchFail st, g, s) =>
         some (.fail (.msg ("Failed to fetch query results: " ++ toString st)), g, s)
       | some (.ready d, g, s) => some (processReady hl d, g, s)) := rfl
  rw [key]
  rw [show List.replicate p.inprog
      ((Except.ok ⟨200, Except.ok inprogPayload⟩ : Except String GetResp)) ++
      [Except.ok ⟨200, Except.ok (goodPayload p)⟩] =
    List.replicate p.inprog ((Except.ok ⟨200, Except.ok inprogPayload⟩ : Except String GetResp)) ++
      Except.ok ⟨200, Except.ok (goodPayload p)⟩ :: [] from rfl]
  rw [hpoll]
  simp only []
  rw [processReady_good hl p rs hrec]

theorem isOk_exists {e : Except PyExc (List Jv)} (h : e.isOk = true) :
    ∃ rs, e = .ok rs := by
  cases e with
  | error _ => simp [Except.isOk, Except.toBool] at h
  | ok rs => exact ⟨rs, rfl⟩

theorem procRecs_eq {p : GoodPage} {rs : List Jv}
    (h : processItems p.records = .ok rs) : procRecs p = rs := by
  simp [procRecs, h]

/-- Consuming a block of continuing good pages: the loop threads the
cursor, appends each page's normalized records, sets `has_more`, and then
proceeds with the rest of the script. -/
theorem pageLoop_chain (q : String) (pages : List GoodPage)
    (hcont : ∀ p ∈ pages, contPage p) :
    ∀ cur acc hm tail,
    pageLoop q false cur acc hm (goodScript pages ++ tail) =
      (match pageLoop q false (endCur cur pages) (acc ++ flatRecs pages) (endHm hm pages) tail with
       | none => none
       | some (out, ts) => some (out, goodTraces cur pages ++ ts)) := by
  induction pages with
  | nil =>
    intro cur acc hm tail
    simp only [goodScript, List.map_nil, List.nil_append, endCur, endHm, flatRecs,
      List.flatten_nil, List.append_nil, goodTraces]
    cases h : pageLoop q false cur acc hm tail with
    | none => simp
    | some r => cases r with | mk out ts => simp
  | cons p ps ih =>
    intro cur acc hm tail
    obtain ⟨hok, s, hc, hs⟩ := hcont p (by simp)
    obtain ⟨rs, hrec⟩ := isOk_exists hok
    have hstep := processPage_good q false p rs hrec
    have hnext : stepGood false p rs = .next rs (some true) (Jv.str s) := by
      simp [stepGood, hc, pyTruthy, hs]
    simp only [goodScript, List.map_cons, List.cons_append, pageLoop, hstep, hnext]
    rw [show (List.map goodPageScript ps).append tail = goodScript ps ++ tail from rfl]
    rw [ih (fun p hp => hcont p (by simp [hp])) (some (Jv.str s)) (acc ++ rs) (updHm hm (some true)) tail]
    simp only [endCur, endHm, hc, updHm, flatRecs, List.map_cons, List.flatten_cons,
      procRecs_eq hrec, goodTraces]
    cases h : pageLoop q false (endCur (some (Jv.str s)) ps)
        (acc ++ (rs ++ (List.map procRecs ps).flatten)) (endHm (some true) ps) tail with
    | none => simp [h]
    | some r => cases r with | mk out ts => simp [h]

/-- Consuming one terminating good page: the loop exits the iteration with
success, appending the page's normalized records; `has_more` is set by the
presence of the `cursor` key even though the cursor is terminal. -/
theorem pageLoop_term (q : String) (p : GoodPage) (ht : termPage p)
    (cur : Option Jv) (acc : List Jv) (hm : Option Bool) (tail : List PageScript) :
    pageLoop q false cur acc hm (goodPageScript p :: tail) =
      some (okOut q (acc ++ procRecs p) (some p.cursor.isSome),
        [⟨cur, p.inprog + 1, p.inprog⟩]) := by
  obtain ⟨hok, hcur⟩ := ht
  obtain ⟨rs, hrec⟩ := isOk_exists hok
  have hstep := processPage_good q false p rs hrec
  have hstop : stepGood false p rs = .stop rs (some p.cursor.isSome) := by
    rcases hcur with h | h | h <;> simp [stepGood, h, pyTruthy]
  simp only [pageLoop, hstep, hstop, procRecs_eq hrec, updHm]

/-- After at least one page carrying a `cursor` key, the `has_more` state
is `True` whatever it was before. -/
theorem endHm_cons (p : GoodPage) (ps : List GoodPage) (hm : Option Bool) :
    endHm hm (p :: ps) = some true := by
  induction ps generalizing hm p with
  | nil => rfl
  | cons a b ih =>
    simp only [endHm]
    exact ih a (some true)

/-- Every terminated run is either a success with no error and a count
equal to the result length, or a failure with an error, empty results and
zero count. -/
theorem pageLoop_cases (q : String) (hl : Bool) :
    ∀ (script : List PageScript) (cur : Option Jv) (acc : List Jv) (hm : Option Bool)
      (r : ExecutionResult) (ts : List PageTrace),
    pageLoop q hl cur acc hm script = some (r, ts) →
    (r.success = true ∧ r.error = none ∧ r.metadata.count = r.results.length) ∨
    (r.success = false ∧ r.error ≠ none ∧ r.results = [] ∧ r.metadata.count = 0) := by
  intro script
  induction script with
  | nil => intro cur acc hm r ts h; simp [pageLoop] at h
  | cons ps rest ih =>
    intro cur acc hm r ts h
    simp only [pageLoop] at h
    cases hp : processPage q hl ps with
    | none => rw [hp] at h; simp at h
    | some step =>
      rw [hp] at h
      obtain ⟨st, g, s⟩ := step
      cases st with
      | fail e =>
        simp only [Option.some.injEq, Prod.mk.injEq] at h
        right
        simp [← h.1, errOut]
      | stop recs phm =>
        simp only [Option.some.injEq, Prod.mk.injEq] at h
        left
        simp [← h.1, okOut]
      | next recs phm c =>
        dsimp only at h
        cases hr : pageLoop q hl (some c) (acc ++ recs) (updHm hm phm) rest with
        | none => rw [hr] at h; simp at h
        | some r2 =>
          rw [hr] at h
          obtain ⟨out, ts2⟩ := r2
          simp only [Option.some.injEq, Prod.mk.injEq] at h
          exact h.1 ▸ ih (some c) (acc ++ recs) (updHm hm phm) out ts2 hr

theorem procRecs_length {p : GoodPage} (h : (processItems p.records).isOk = true) :
    (procRecs p).length = p.records.length := by
  obtain ⟨rs, hrs⟩ := isOk_exists h
  rw [procRecs_eq hrs, processItems_length hrs]

theorem flatRecs_append_one (pages : List GoodPage) (p : GoodPage) :
    flatRecs (pages ++ [p]) = flatRecs pages ++ procRecs p := by
  simp [flatRecs]

theorem goodTraces_append (cur : Option Jv) (pages : List GoodPage) (p : GoodPage) :
    goodTraces cur (pages ++ [p]) =
      goodTraces cur pages ++ [⟨endCur cur pages, p.inprog + 1, p.inprog⟩] := by
  induction pages generalizing cur with
  | nil => rfl
  | cons a b ih => simp [goodTraces, endCur, ih a.cursor]

theorem goodTraces_cursors (cur : Option Jv) (pages : List GoodPage) (p : GoodPage) :
    (goodTraces cur (pages ++ [p])).map PageTrace.sentCursor =
      cur :: pages.map GoodPage.cursor := by
  induction pages generalizing cur with
  | nil => rfl
  | cons a b ih => simp [goodTraces, ih a.cursor]

/-- With an explicit limit the pagination decision is always to stop. -/
theorem afterData_limit (d : Jv) (recs : List Jv) (hm : Option Bool) :
    afterData true d recs hm = .stop recs hm := rfl

theorem processReady_limit_no_next (d : Jv) (recs : List Jv) (phm : Option Bool) (c : Jv) :
    processReady true d ≠ .next recs phm c := by
  unfold processReady
  split
  · simp
  · split
    · simp
    · split
      · simp
      · split
        · simp
        · split
          · simp
          · simp [afterData_limit]
  · split
    · simp
    · split
      · simp
      · simp [afterData_limit]

theorem processPage_limit_no_next (q : String) (ps : PageScript) (recs : List Jv)
    (phm : Option Bool) (c : Jv) (g s : Nat) :
    processPage q true ps ≠ some (.next recs phm c, g, s) := by
  unfold processPage
  repeat' split
  all_goals intro h
  all_goals try simp at h
  all_goals try exact processReady_limit_no_next _ _ _ _ h.1

/-- With an explicit limit, one good page ends the loop with success no
matter what its cursor says. -/
theorem pageLoop_limit (q : String) (p : GoodPage) (rs : List Jv)
    (hrec : processItems p.records = .ok rs)
    (cur : Option Jv) (acc : List Jv) (hm : Option Bool) (tail : List PageScript) :
    pageLoop q true cur acc hm (goodPageScript p :: tail) =
      some (okOut q (acc ++ rs) (some p.cursor.isSome), [⟨cur, p.inprog + 1, p.inprog⟩]) := by
  have hstep := processPage_good q true p rs hrec
  have hstop : stepGood true p rs = .stop rs (some p.cursor.isSome) := by simp [stepGood]
  simp only [pageLoop, hstep, hstop, updHm]

theorem http_generic_ne_rate (s : Nat) (t : String) :
    ("HTTP Error " ++ toString s ++ ": " ++ t) ≠
      "Rate limit exceeded. Please try again later." := by
  intro h
  have hd : ("HTTP Error " ++ toString s ++ ": " ++ t).data.head? = some 'H' := by
    cases hts : toString s with
    | mk l => cases t with | mk l2 => rfl
  rw [h] at hd
  exact absurd hd (by decide)

/-! ## Claim theorems -/

/-- C1: every terminated execution is exactly one of: success with `error`
absent and `count` equal to the result length, or failure with `error`
populated, `results` empty and `count` zero — so records accumulated on
earlier pages are never surfaced when a later page fails, and a normal
termination carries no error field. -/
theorem c1_error_dichotomy (q : String) (script : List PageScript)
    (r : ExecutionResult) (ts : List PageTrace)
    (h : runQuery q script = some (r, ts)) :
    (r.success = true ∧ r.error = none ∧ r.metadata.count = r.results.length) ∨
    (r.success = false ∧ r.error ≠ none ∧ r.results = [] ∧ r.metadata.count = 0) :=
  pageLoop_cases q (hasLimitRe q) script none [] none r ts h

theorem c1_error_dichotomy_witness :
    (({ query := "FIND User", success := true, results := [],
        metadata := { count := 0, has_more := some false },
        error := none } : ExecutionResult).success = true ∧
     ({ query := "FIND User", success := true, results := [],
        metadata := { count := 0, has_more := some false },
        error := none } : ExecutionResult).error = none ∧
     ({ query := "FIND User", success := true, results := [],
        metadata := { count := 0, has_more := some false },
        error := none } : ExecutionResult).metadata.count =
       ({ query := "FIND User", success := true, results := [],
          metadata := { count := 0, has_more := some false },
          error := none } : ExecutionResult).results.length) ∨
    (({ query := "FIND User", success := true, results := [],
        metadata := { count := 0, has_more := some false },
        error := none } : ExecutionResult).success = false ∧
     ({ query := "FIND User", success := true, results := [],
        metadata := { count := 0, has_more := some false },
        error := none } : ExecutionResult).error ≠ none ∧
     ({ query := "FIND User", success := true, results := [],
        metadata := { count := 0, has_more := some false },
        error := none } : ExecutionResult).results = [] ∧
     ({ query := "FIND User", success := true, results := [],
        metadata := { count := 0, has_more := some false },
        error := none } : ExecutionResult).metadata.count = 0) :=
  c1_error_dichotomy "FIND User" [goodPageScript ⟨[], none, 0⟩] _ [⟨none, 1, 0⟩] rfl

/-- C2: injected failures — a transport exception on the submission, a
submission body that is not valid JSON, and a submission body whose
`data.queryV1` object lacks the `url` field — all return a well-formed
result with `success=false` and a populated `error`; the engine function
is total, so no exception escapes to the caller. -/
theorem c2_no_raise (q m : String) :
    runQuery q [⟨.error m, []⟩] =
      some ({ query := q, success := false, results := [],
              metadata := { count := 0, has_more := none },
              error := some (.msg ("Request failed: " ++ m)) }, [⟨none, 0, 0⟩]) ∧
    runQuery q [⟨.ok ⟨200, "not json", .error m⟩, []⟩] =
      some ({ query := q, success := false, results := [],
              metadata := { count := 0, has_more := none },
              error := some (.msg ("Request failed: " ++ m)) }, [⟨none, 0, 0⟩]) ∧
    runQuery q [⟨.ok ⟨200, "", .ok (Jv.obj [("data", Jv.obj [("queryV1", Jv.obj [])])])⟩, []⟩] =
      some ({ query := q, success := false, results := [],
              metadata := { count := 0, has_more := none },
              error := some (.msg "Failed to process query response: 'url'") }, [⟨none, 0, 0⟩]) :=
  ⟨rfl, rfl, rfl⟩

/-- C3: when the query carries an explicit `LIMIT n` directive (so
`has_limit`, computed once before the loop, is true), every terminated run
performs exactly one submission; on a clean page the run succeeds with
just that page's normalized records even when the page carries a non-empty
continuation cursor. -/
theorem c3_limit_single_page (q : String) (hlim : hasLimitRe q = true) :
    (∀ (script : List PageScript) (r : ExecutionResult) (ts : List PageTrace),
      runQuery q script = some (r, ts) → ts.length = 1) ∧
    (∀ (p : GoodPage) (rs : List Jv) (rest : List PageScript),
      processItems p.records = .ok rs →
      runQuery q (goodPageScript p :: rest) =
        some (okOut q rs (some p.cursor.isSome), [⟨none, p.inprog + 1, p.inprog⟩])) := by
  constructor
  · intro script r ts h
    unfold runQuery at h
    rw [hlim] at h
    cases script with
    | nil => simp [pageLoop] at h
    | cons ps rest =>
      simp only [pageLoop] at h
      cases hp : processPage q true ps with
      | none => rw [hp] at h; simp at h
      | some step =>
        rw [hp] at h
        obtain ⟨st, g, s⟩ := step
        cases st with
        | fail e =>
          simp only [Option.some.injEq, Prod.mk.injEq] at h
          simp [← h.2]
        | stop recs phm =>
          simp only [Option.some.injEq, Prod.mk.injEq] at h
          simp [← h.2]
        | next recs phm c => exact absurd hp (processPage_limit_no_next q ps recs phm c g s)
  · intro p rs rest hrec
    unfold runQuery
    rw [hlim]
    have := pageLoop_limit q p rs hrec none [] none rest
    simpa using this

theorem c3_limit_single_page_witness :
    runQuery "FIND User LIMIT 50"
        (goodPageScript ⟨[Jv.obj [("x", Jv.num 1)]], some (Jv.str "more-pages"), 2⟩ :: [⟨.error "never reached", []⟩]) =
      some (okOut "FIND User LIMIT 50" [Jv.obj [("x", Jv.num 1)]]
        (some (some (Jv.str "more-pages")).isSome), [⟨none, 2 + 1, 2⟩]) :=
  (c3_limit_single_page "FIND User LIMIT 50" (by decide)).2
    ⟨[Jv.obj [("x", Jv.num 1)]], some (Jv.str "more-pages"), 2⟩
    [Jv.obj [("x", Jv.num 1)]] [⟨.error "never reached", []⟩] rfl

theorem flatRecs_length (L : List GoodPage)
    (hall : ∀ p ∈ L, (processItems p.records).isOk = true) :
    (flatRecs L).length = (L.map (fun p => p.records.length)).sum := by
  induction L with
  | nil => rfl
  | cons a b ih =>
    have h1 : flatRecs (a :: b) = procRecs a ++ flatRecs b := by simp [flatRecs]
    rw [h1, List.length_append, procRecs_length (hall a (by simp)),
      ih (fun p hp => hall p (by simp [hp]))]
    simp

/-- C4: on a successful run without an explicit limit, the result list is
the in-order concatenation of the pages' normalized records (its length is
the sum of the pages' record counts); each page's non-empty string cursor
is sent with the next submission; and the loop stops exactly at the first
page whose cursor key is absent, null, or the empty string — later script
entries are never consumed. -/
theorem c4_pagination_accumulation (q : String) (pages : List GoodPage) (last : GoodPage)
    (rest : List PageScript)
    (hq : hasLimitRe q = false)
    (hcont : ∀ p ∈ pages, contPage p)
    (hterm : termPage last) :
    runQuery q (goodScript (pages ++ [last]) ++ rest) =
      some (okOut q (flatRecs (pages ++ [last])) (some last.cursor.isSome),
            goodTraces none (pages ++ [last])) ∧
    (flatRecs (pages ++ [last])).length =
      ((pages ++ [last]).map (fun p => p.records.length)).sum ∧
    (goodTraces none (pages ++ [last])).map PageTrace.sentCursor =
      none :: pages.map GoodPage.cursor := by
  refine ⟨?_, ?_, goodTraces_cursors none pages last⟩
  · unfold runQuery
    rw [hq]
    have hsplit : goodScript (pages ++ [last]) ++ rest =
        goodScript pages ++ (goodPageScript last :: rest) := by
      simp [goodScript]
    rw [hsplit, pageLoop_chain q pages hcont none [] none (goodPageScript last :: rest),
      pageLoop_term q last hterm (endCur none pages) ([] ++ flatRecs pages)
        (endHm none pages) rest]
    rw [goodTraces_append none pages last, flatRecs_append_one pages last]
    simp
  · refine flatRecs_length (pages ++ [last]) ?_
    intro p hp
    rcases List.mem_append.mp hp with h | h
    · exact (hcont p h).1
    · simp at h
      exact h ▸ hterm.1

def w4p1 : GoodPage :=
  ⟨[Jv.obj [("id", Jv.str "1"),
            ("entity", Jv.obj [("_type", Jv.str "aws_iam_user")]),
            ("properties", Jv.obj [("active", Jv.bool true)])]],
   some (Jv.str "c1"), 1⟩

def w4p2 : GoodPage :=
  ⟨[Jv.obj [("count", Jv.num 7)], Jv.obj [("x", Jv.null)]], some Jv.null, 0⟩

theorem c4_pagination_accumulation_witness :
    runQuery "FIND User THAT HAS Device"
        (goodScript ([w4p1] ++ [w4p2]) ++ [⟨.error "unused", []⟩]) =
      some (okOut "FIND User THAT HAS Device" (flatRecs ([w4p1] ++ [w4p2]))
              (some w4p2.cursor.isSome),
            goodTraces none ([w4p1] ++ [w4p2])) ∧
    (flatRecs ([w4p1] ++ [w4p2])).length =
      (([w4p1] ++ [w4p2]).map (fun p => p.records.length)).sum ∧
    (goodTraces none ([w4p1] ++ [w4p2])).map PageTrace.sentCursor =
      none :: [w4p1].map GoodPage.cursor :=
  c4_pagination_accumulation "FIND User THAT HAS Device" [w4p1] w4p2
    [⟨.error "unused", []⟩]
    (by decide)
    (by
      intro p hp
      simp at hp
      subst hp
      exact ⟨by decide, "c1", rfl, by decide⟩)
    ⟨by decide, Or.inr (Or.inl rfl)⟩

/-- C5: when the download location answers `IN_PROGRESS` exactly `n` times
and then any other status, the polling loop performs exactly `n + 1`
fetches with `n` sleeps of `sleepIntervalMs` (200 ms) in between, and
hands the final payload on for normalization; at the engine level such a
page costs exactly one submission (no re-submission while polling). -/
theorem c5_polling_fetch_count (n : Nat) (d st : Jv) (rest : List (Except String GetResp))
    (hst : pyGet d "status" Jv.null = .ok st) (hip : isInProgress st = false) :
    pollLoop (List.replicate n (.ok ⟨200, .ok inprogPayload⟩) ++ .ok ⟨200, .ok d⟩ :: rest) =
      some (.ready d, n + 1, n) ∧
    sleepIntervalMs = 200 ∧
    (∀ (q : String) (p : GoodPage), hasLimitRe q = false → termPage p →
      runQuery q [goodPageScript p] =
        some (okOut q (procRecs p) (some p.cursor.isSome),
              [⟨none, p.inprog + 1, p.inprog⟩])) := by
  refine ⟨pollLoop_replicate n d st rest hst hip, rfl, ?_⟩
  intro q p hq ht
  unfold runQuery
  rw [hq]
  have := pageLoop_term q p ht none [] none []
  simpa using this

theorem c5_polling_fetch_count_witness :
    pollLoop (List.replicate 3 (.ok ⟨200, .ok inprogPayload⟩) ++
        .ok ⟨200, .ok (Jv.obj [("status", Jv.str "COMPLETED")])⟩ :: []) =
      some (.ready (Jv.obj [("status", Jv.str "COMPLETED")]), 3 + 1, 3) :=
  (c5_polling_fetch_count 3 (Jv.obj [("status", Jv.str "COMPLETED")])
    (Jv.str "COMPLETED") [] rfl rfl).1

/-- C6: a non-200 submission status is classified solely by the status
code — 401 unauthorized, 429/503 rate-limit, 504 gateway timeout, 500
upstream internal error, everything else a generic message carrying the
status and the raw body; the rate-limit message differs from every other
classification; and 401 is not in the transport retry forcelist, so a 401
response is never retried. -/
theorem c6_http_status_classification (q text : String) (jb : Except String Jv)
    (polls : List (Except String GetResp)) (rest : List PageScript) (s : Nat) :
    runQuery q (⟨.ok ⟨401, text, jb⟩, polls⟩ :: rest) =
      some (errOut q
        (.msg "401: Unauthorized. Please supply a valid account id and API token.") none,
        [⟨none, 0, 0⟩]) ∧
    runQuery q (⟨.ok ⟨429, text, jb⟩, polls⟩ :: rest) =
      some (errOut q (.msg "Rate limit exceeded. Please try again later.") none,
        [⟨none, 0, 0⟩]) ∧
    runQuery q (⟨.ok ⟨503, text, jb⟩, polls⟩ :: rest) =
      some (errOut q (.msg "Rate limit exceeded. Please try again later.") none,
        [⟨none, 0, 0⟩]) ∧
    runQuery q (⟨.ok ⟨504, text, jb⟩, polls⟩ :: rest) =
      some (errOut q (.msg "Gateway Timeout.") none, [⟨none, 0, 0⟩]) ∧
    runQuery q (⟨.ok ⟨500, text, jb⟩, polls⟩ :: rest) =
      some (errOut q (.msg "JupiterOne API internal server error.") none, [⟨none, 0, 0⟩]) ∧
    (s ≠ 200 → s ≠ 401 → s ≠ 429 → s ≠ 503 → s ≠ 504 → s ≠ 500 →
      runQuery q (⟨.ok ⟨s, text, jb⟩, polls⟩ :: rest) =
        some (errOut q (.msg ("HTTP Error " ++ toString s ++ ": " ++ text)) none,
          [⟨none, 0, 0⟩])) ∧
    401 ∉ sessionRetry.status_forcelist ∧
    ("Rate limit exceeded. Please try again later." ≠
        "401: Unauthorized. Please supply a valid account id and API token." ∧
     "Rate limit exceeded. Please try again later." ≠ "Gateway Timeout." ∧
     "Rate limit exceeded. Please try again later." ≠
        "JupiterOne API internal server error." ∧
     ∀ (s' : Nat) (t' : String),
       "HTTP Error " ++ toString s' ++ ": " ++ t' ≠
         "Rate limit exceeded. Please try again later.") := by
  refine ⟨rfl, rfl, rfl, rfl, rfl, ?_, by decide,
    by decide, by decide, by decide, http_generic_ne_rate⟩
  intro h200 h401 h429 h503 h504 h500
  unfold runQuery pageLoop processPage
  simp [h200, h401, h429, h503, h504, h500, classifyHttp, errOut]

theorem c6_http_status_classification_witness :
    runQuery "FIND User" (⟨.ok ⟨418, "teapot body", .ok Jv.null⟩, []⟩ :: []) =
      some (errOut "FIND User"
        (.msg ("HTTP Error " ++ toString 418 ++ ": " ++ "teapot body")) none,
        [⟨none, 0, 0⟩]) :=
  (c6_http_status_classification "FIND User" "teapot body" (.ok Jv.null) [] [] 418).2.2.2.2.2.1
    (by decide) (by decide) (by decide) (by decide) (by decide) (by decide)

/-- C7: a protocol error message that carries the parsing-error marker,
whose leftmost positional fragment reads `at line 3 column 7` and whose
leftmost token fragment reads `Unexpected token "="`, is classified into
the structured parsing error with `line=3`, `column=7`,
`unexpected_token="="` and the WITH-instead-of-WHERE suggestion, and the
engine returns it as the terminal error of the run. -/
theorem c7_parsing_error_extraction (q msg : String)
    (hmark : strContains msg "Error parsing query" = true)
    (hlc : matchLineCol msg.data = some (3, 7))
    (htok : matchToken msg.data = some "=") :
    (classifyParsing q msg).line = some 3 ∧
    (classifyParsing q msg).column = some 7 ∧
    (classifyParsing q msg).unexpected_token = some "=" ∧
    (classifyParsing q msg).suggestion =
      some "In J1QL, property filtering should use 'WITH' clause instead of 'WHERE' for entity properties" ∧
    (classifyParsing q msg).type = "J1QL_PARSING_ERROR" ∧
    ∀ rest : List PageScript,
      runQuery q (⟨.ok ⟨200, "",
          .ok (Jv.obj [("errors", Jv.arr [Jv.obj [("message", Jv.str msg)]])])⟩, []⟩ :: rest) =
        some (errOut q (.parsing (classifyParsing q msg)) none, [⟨none, 0, 0⟩]) := by
  refine ⟨?_, ?_, ?_, ?_, rfl, ?_⟩
  · simp [classifyParsing, hlc]
  · simp [classifyParsing, hlc]
  · simp [classifyParsing, htok]
  · simp [classifyParsing, htok, suggestionFor]
  · intro rest
    unfold runQuery pageLoop processPage
    have hcont : pyContains "errors"
        (Jv.obj [("errors", Jv.arr [Jv.obj [("message", Jv.str msg)]])]) = .ok true := rfl
    have hclass : classifyGraphQLErrors q
        (Jv.obj [("errors", Jv.arr [Jv.obj [("message", Jv.str msg)]])]) =
        .parsing (classifyParsing q msg) := by
      have hmem : pyContains "Error parsing query" (Jv.str msg) = .ok true := by
        simpa [pyContains, strContains] using hmark
      simp [classifyGraphQLErrors, pySubscript, pyIter, classifyMessages, pyGet,
        List.lookup, hmem]
    simp [hcont, hclass, errOut]

def q7 : String := "FIND User WHERE active = true"

def m7 : String :=
  "Error parsing query - Syntax error at line 3 column 7: Unexpected token \"=\""

theorem c7_parsing_error_extraction_witness :
    (classifyParsing q7 m7).line = some 3 ∧
    (classifyParsing q7 m7).column = some 7 ∧
    (classifyParsing q7 m7).unexpected_token = some "=" ∧
    runQuery q7 (⟨.ok ⟨200, "",
        .ok (Jv.obj [("errors", Jv.arr [Jv.obj [("message", Jv.str m7)]])])⟩, []⟩ :: []) =
      some (errOut q7 (.parsing (classifyParsing q7 m7)) none, [⟨none, 0, 0⟩]) :=
  ⟨(c7_parsing_error_extraction q7 m7 (by decide) (by decide) (by decide)).1,
   (c7_parsing_error_extraction q7 m7 (by decide) (by decide) (by decide)).2.1,
   (c7_parsing_error_extraction q7 m7 (by decide) (by decide) (by decide)).2.2.1,
   (c7_parsing_error_extraction q7 m7 (by decide) (by decide) (by decide)).2.2.2.2.2 []⟩

/-- C8 counterexample: a parsing-error message that carries the caret
fragment but no `> N | ...` query-line fragment gets no `pointer` field —
the pointer extraction is not independent of the query-line extraction. -/
theorem c8_counterexample :
    strContains "Error parsing query\n    | ^^^" "\n    | ^^^" = true ∧
    matchPointer "Error parsing query\n    | ^^^".data = some "^^^" ∧
    matchQueryLine "Error parsing query\n    | ^^^".data = none ∧
    (classifyParsing "FIND User" "Error parsing query\n    | ^^^").pointer = none :=
  ⟨by decide, by decide, by decide, rfl⟩

/-- C8 (amended): the line/column, unexpected-token and query-line
extractions are independent and best-effort, each failing silently; the
pointer extraction, however, is attempted only when the query-line
extraction succeeded, and is omitted otherwise even when the caret
fragment is present. -/
theorem c8_extraction_dependencies (q msg : String) :
    (classifyParsing q msg).line = (matchLineCol msg.data).map Prod.fst ∧
    (classifyParsing q msg).column = (matchLineCol msg.data).map Prod.snd ∧
    (classifyParsing q msg).unexpected_token = matchToken msg.data ∧
    (classifyParsing q msg).query_line = matchQueryLine msg.data ∧
    ((matchQueryLine msg.data).isSome = true →
      (classifyParsing q msg).pointer = matchPointer msg.data) ∧
    (matchQueryLine msg.data = none → (classifyParsing q msg).pointer = none) := by
  refine ⟨rfl, rfl, rfl, rfl, ?_, ?_⟩
  · intro h
    obtain ⟨ql, hql⟩ := Option.isSome_iff_exists.mp h
    simp [classifyParsing, hql]
  · intro h
    simp [classifyParsing, h]

theorem c8_extraction_dependencies_witness :
    (classifyParsing "FIND User"
        "Error parsing query\n> 3 | FIND User WHERE a = 1\n    | ^^^\nend").pointer =
      matchPointer "Error parsing query\n> 3 | FIND User WHERE a = 1\n    | ^^^\nend".data :=
  (c8_extraction_dependencies "FIND User"
    "Error parsing query\n> 3 | FIND User WHERE a = 1\n    | ^^^\nend").2.2.2.2.1 (by decide)

/-- C9 counterexample: normalization is not total — a record that is a
bare number makes `'entity' in item` raise `TypeError`, which aborts the
whole query with an error result instead of passing the record through. -/
theorem c9_counterexample :
    (normalizeItem (Jv.num 42)).isOk = false ∧
    normalizeItem (Jv.num 42) ≠ .ok (Jv.num 42) ∧
    runQuery "FIND User"
        [⟨.ok goodPost,
          [.ok ⟨200, .ok (Jv.obj [("status", Jv.str "FINISHED"),
                                  ("data", Jv.arr [Jv.num 42])])⟩]⟩] =
      some (errOut "FIND User"
        (.msg "Unexpected error: argument of type is not iterable") none,
        [⟨none, 1, 0⟩]) := by
  refine ⟨rfl, ?_, rfl⟩
  intro h
  have he : normalizeItem (Jv.num 42) =
      Except.error (PyExc.typeError "argument of type is not iterable") := rfl
  rw [he] at h
  exact Except.noConfusion h

/-- C9 (amended): normalization succeeds exactly on the two enumerated
dict shapes — a dict with both an `entity` key holding a dict and a
`properties` key flattens to the entity shape populated from the
corresponding fields, and a dict lacking either key passes through
unchanged; every other record aborts the query: a dict with both keys
whose `entity` value is not a dict raises `AttributeError` at
`item["entity"].get` (source line 191), just as a non-container record
raises `TypeError` at the `in` test (source line 187). -/
theorem c9_normalize_obj (fs : List (String × Jv)) :
    ((fs.any (fun p => p.1 == "entity") = false ∨
      fs.any (fun p => p.1 == "properties") = false) →
      normalizeItem (Jv.obj fs) = .ok (Jv.obj fs)) ∧
    (∀ (efs : List (String × Jv)) (pv : Jv),
      fs.any (fun p => p.1 == "entity") = true →
      fs.any (fun p => p.1 == "properties") = true →
      List.lookup "entity" fs = some (Jv.obj efs) →
      List.lookup "properties" fs = some pv →
      normalizeItem (Jv.obj fs) =
        .ok (Jv.obj [("id", (List.lookup "id" fs).getD Jv.null),
                     ("type", (List.lookup "_type" efs).getD Jv.null),
                     ("class", (List.lookup "_class" efs).getD (Jv.arr [])),
                     ("name", (List.lookup "displayName" efs).getD Jv.null),
                     ("integrationName", (List.lookup "_integrationName" efs).getD Jv.null),
                     ("properties", pv)])) ∧
    (∀ ev : Jv,
      fs.any (fun p => p.1 == "entity") = true →
      fs.any (fun p => p.1 == "properties") = true →
      List.lookup "entity" fs = some ev →
      (∀ efs : List (String × Jv), ev ≠ Jv.obj efs) →
      normalizeItem (Jv.obj fs) =
        .error (.attrError "object has no attribute get")) := by
  refine ⟨?_, ?_, ?_⟩
  · intro h
    rcases h with h | h <;>
      simp [normalizeItem, pyContains, h, bind, Except.bind, pure, Except.pure]
  · intro efs pv he hp hent hprop
    simp [normalizeItem, pyContains, he, hp, pyGet, pySubscript, hent, hprop,
      bind, Except.bind, pure, Except.pure]
  · intro ev he hp hent hnotobj
    cases ev with
    | obj efs => exact absurd rfl (hnotobj efs)
    | null =>
      simp [normalizeItem, pyContains, he, hp, pyGet, pySubscript, hent,
        bind, Except.bind]
    | bool b =>
      simp [normalizeItem, pyContains, he, hp, pyGet, pySubscript, hent,
        bind, Except.bind]
    | num n =>
      simp [normalizeItem, pyContains, he, hp, pyGet, pySubscript, hent,
        bind, Except.bind]
    | str s =>
      simp [normalizeItem, pyContains, he, hp, pyGet, pySubscript, hent,
        bind, Except.bind]
    | arr xs =>
      simp [normalizeItem, pyContains, he, hp, pyGet, pySubscript, hent,
        bind, Except.bind]

def w9fs : List (String × Jv) :=
  [("id", Jv.str "e1"),
   ("entity", Jv.obj [("_type", Jv.str "aws_iam_user"), ("displayName", Jv.str "alice")]),
   ("properties", Jv.obj [("active", Jv.bool true)])]

theorem c9_normalize_obj_witness :
    normalizeItem (Jv.obj w9fs) =
      .ok (Jv.obj [("id", (List.lookup "id" w9fs).getD Jv.null),
                   ("type", (List.lookup "_type"
                      [("_type", Jv.str "aws_iam_user"), ("displayName", Jv.str "alice")]).getD Jv.null),
                   ("class", (List.lookup "_class"
                      [("_type", Jv.str "aws_iam_user"), ("displayName", Jv.str "alice")]).getD (Jv.arr [])),
                   ("name", (List.lookup "displayName"
                      [("_type", Jv.str "aws_iam_user"), ("displayName", Jv.str "alice")]).getD Jv.null),
                   ("integrationName", (List.lookup "_integrationName"
                      [("_type", Jv.str "aws_iam_user"), ("displayName", Jv.str "alice")]).getD Jv.null),
                   ("properties", Jv.obj [("active", Jv.bool true)])]) ∧
    normalizeItem (Jv.obj [("entity", Jv.num 5), ("properties", Jv.num 0)]) =
      .error (.attrError "object has no attribute get") :=
  ⟨(c9_normalize_obj w9fs).2.1
    [("_type", Jv.str "aws_iam_user"), ("displayName", Jv.str "alice")]
    (Jv.obj [("active", Jv.bool true)]) rfl rfl rfl rfl,
   (c9_normalize_obj [("entity", Jv.num 5), ("properties", Jv.num 0)]).2.2
    (Jv.num 5) rfl rfl rfl (fun _ h => Jv.noConfusion h)⟩

/-- C10 counterexample: a first page with `data` and cursor `"abc"` sets
`has_more = True`; when the second submission then fails with a 500, the
returned failure result still carries `has_more = True` — on failure the
metadata does not lose the field. -/
theorem c10_counterexample :
    runQuery "FIND User"
        [goodPageScript ⟨[], some (Jv.str "abc"), 0⟩,
         ⟨.ok ⟨500, "boom", .ok Jv.null⟩, []⟩] =
      some (errOut "FIND User" (.msg "JupiterOne API internal server error.") (some true),
            [⟨none, 1, 0⟩, ⟨some (Jv.str "abc"), 0, 0⟩]) ∧
    (errOut "FIND User" (.msg "JupiterOne API internal server error.")
        (some true)).success = false ∧
    (errOut "FIND User" (.msg "JupiterOne API internal server error.")
        (some true)).metadata.has_more = some true :=
  ⟨rfl, rfl, rfl⟩

/-- C10 (amended): on a successful run `has_more` is `True` exactly when
the last data-carrying page had a `cursor` key (whatever its value, so it
can be `True` though pagination stopped); a failure before any data page
leaves the metadata without `has_more`; but a failure after earlier pages
assigned it retains the stale value in the failure result. -/
theorem c10_has_more_semantics (q : String) (pages : List GoodPage) (last : GoodPage)
    (m : String)
    (hq : hasLimitRe q = false)
    (hcont : ∀ p ∈ pages, contPage p)
    (hterm : termPage last) :
    runQuery q (goodScript (pages ++ [last])) =
      some (okOut q (flatRecs (pages ++ [last])) (some last.cursor.isSome),
            goodTraces none (pages ++ [last])) ∧
    runQuery q [⟨.error m, []⟩] =
      some (errOut q (.msg ("Request failed: " ++ m)) none, [⟨none, 0, 0⟩]) ∧
    (pages ≠ [] →
      runQuery q (goodScript pages ++ [⟨.error m, []⟩]) =
        some (errOut q (.msg ("Request failed: " ++ m)) (some true),
              goodTraces none pages ++ [⟨endCur none pages, 0, 0⟩])) := by
  refine ⟨?_, rfl, ?_⟩
  · unfold runQuery
    rw [hq]
    have hsplit : goodScript (pages ++ [last]) =
        goodScript pages ++ (goodPageScript last :: []) := by
      simp [goodScript]
    rw [hsplit, pageLoop_chain q pages hcont none [] none (goodPageScript last :: []),
      pageLoop_term q last hterm (endCur none pages) ([] ++ flatRecs pages)
        (endHm none pages) []]
    rw [goodTraces_append none pages last, flatRecs_append_one pages last]
    simp
  · intro hne
    obtain ⟨a, b, rfl⟩ : ∃ a b, pages = a :: b := by
      cases pages with
      | nil => exact absurd rfl hne
      | cons a b => exact ⟨a, b, rfl⟩
    unfold runQuery
    rw [hq, pageLoop_chain q (a :: b) hcont none [] none [⟨.error m, []⟩]]
    rw [endHm_cons a b none]
    simp [pageLoop, processPage]

def w10p : GoodPage := ⟨[Jv.obj [("a", Jv.num 1)]], some (Jv.str "next"), 0⟩

def w10last : GoodPage := ⟨[], none, 1⟩

theorem c10_has_more_semantics_witness :
    runQuery "FIND Host" (goodScript ([w10p] ++ [w10last])) =
      some (okOut "FIND Host" (flatRecs ([w10p] ++ [w10last]))
              (some w10last.cursor.isSome),
            goodTraces none ([w10p] ++ [w10last])) ∧
    runQuery "FIND Host" (goodScript [w10p] ++ [⟨.error "boom", []⟩]) =
      some (errOut "FIND Host" (.msg ("Request failed: " ++ "boom")) (some true),
            goodTraces none [w10p] ++ [⟨endCur none [w10p], 0, 0⟩]) :=
  ⟨(c10_has_more_semantics "FIND Host" [w10p] w10last "boom" (by decide)
      (by
        intro p hp
        simp at hp
        subst hp
        exact ⟨by decide, "next", rfl, by decide⟩)
      ⟨by decide, Or.inl rfl⟩).1,
   (c10_has_more_semantics "FIND Host" [w10p] w10last "boom" (by decide)
      (by
        intro p hp
        simp at hp
        subst hp
        exact ⟨by decide, "next", rfl, by decide⟩)
      ⟨by decide, Or.inl rfl⟩).2.2 (by simp)⟩
